import Mathlib

/-!
Verification development for the noir-benchmark-cli staged benchmark engine.

Shallow embedding of the core: the stage profiler
(src/infrastructure/profiling/PerformanceProfiler.ts), the domain models
(src/domain/models/Circuit.ts, src/domain/models/ProofResult.ts), the
application services (CircuitService.ts, ProofService.ts) and the
BenchmarkOrchestrator.

Modelling conventions:
* JavaScript numbers are modelled as `Rat` (all arithmetic the code performs
  on them is exact +, -, *, /, max).
* Wall-clock time is a rational "clock" threaded through every asynchronous
  operation; each external (repository-level) operation advances the clock by
  an environment-given duration.  `performance.now()` reads the clock.
* `process.memoryUsage()` is modelled as an environment-given function from
  the current clock value to a memory snapshot.
* Thrown JavaScript errors are values of `JsError`; a fallible computation
  returns `Except JsError α`.  The profiler's re-thrown
  `new Error("Stage <name> failed after <t>ms: <msg>")` is kept structured as
  `JsError.stageFailure name t msg` (the source flattens the same three
  components into the message string).
* The `external` field of NodeJS.MemoryUsage is named `extMem` here.
* Logger calls are pure notifications with no effect on the benchmark state
  and are not modelled; the profiler's optional PerformanceObserver
  "observation mode" (startObserving/stopObserving) only appends to a side
  list of measurements that no modelled code reads, and is likewise omitted.
-/

namespace NoirBench

/-- NodeJS.MemoryUsage snapshot (the four fields the profiler uses;
`external` is renamed `extMem`). -/
structure MemSnapshot where
  heapUsed : Rat
  heapTotal : Rat
  extMem : Rat
  rss : Rat
  deriving DecidableEq, Repr

/-- A thrown JavaScript error value.
`plain` is a bare `new Error(message)`;
`benchError` / `benchErrorRoot` is one of the BenchmarkError subclasses of
src/shared/errors/BenchmarkError.ts, identified by its class name, carrying
its composed message and its cause (`benchErrorRoot` when the optional cause
is absent);
`stageFailure` is the profiler's re-thrown
`new Error("Stage <name> failed after <t>ms: <causeMessage>")`, kept with its
three components structured. -/
inductive JsError where
  | plain (message : String)
  | benchError (name : String) (message : String) (cause : JsError)
  | benchErrorRoot (name : String) (message : String)
  | stageFailure (stageName : String) (elapsedMs : Rat) (causeMessage : String)
  deriving DecidableEq, Repr

/-- `.message` of the thrown error object. -/
def JsError.message : JsError → String
  | .plain m => m
  | .benchError _ m _ => m
  | .benchErrorRoot _ m => m
  | .stageFailure n t c => "Stage " ++ n ++ " failed after " ++ toString t ++ "ms: " ++ c

/-- `error instanceof CircuitNotFoundError`. -/
def JsError.isCircuitNotFound : JsError → Bool
  | .benchError n _ _ => n == "CircuitNotFoundError"
  | .benchErrorRoot n _ => n == "CircuitNotFoundError"
  | _ => false

/-- Whether the error is the profiler's stage-annotated re-throw. -/
def JsError.isStageAnnotated : JsError → Bool
  | .stageFailure _ _ _ => true
  | _ => false

/-- `new CircuitNotFoundError(circuitName)`. -/
def circuitNotFoundError (circuitName : String) : JsError :=
  .benchErrorRoot "CircuitNotFoundError" ("Circuit '" ++ circuitName ++ "' not found")

/-- `new CircuitLoadError(circuitName, cause)`. -/
def circuitLoadError (circuitName : String) (cause : JsError) : JsError :=
  .benchError "CircuitLoadError" ("Failed to load circuit '" ++ circuitName ++ "'") cause

/-- `new WitnessGenerationError(message, cause)`. -/
def witnessGenerationError (message : String) (cause : JsError) : JsError :=
  .benchError "WitnessGenerationError" ("Witness generation failed: " ++ message) cause

/-- `new ProofGenerationError(message, cause)`. -/
def proofGenerationError (message : String) (cause : JsError) : JsError :=
  .benchError "ProofGenerationError" ("Proof generation failed: " ++ message) cause

/-- `new ProofVerificationError(message, cause)`. -/
def proofVerificationError (message : String) (cause : JsError) : JsError :=
  .benchError "ProofVerificationError" ("Proof verification failed: " ++ message) cause

instance {ε α : Type} [DecidableEq ε] [DecidableEq α] : DecidableEq (Except ε α) := fun x y =>
  match x, y with
  | .ok a, .ok b =>
      if h : a = b then .isTrue (by rw [h])
      else .isFalse (fun hc => h (by injection hc))
  | .error a, .error b =>
      if h : a = b then .isTrue (by rw [h])
      else .isFalse (fun hc => h (by injection hc))
  | .ok _, .error _ => .isFalse (fun hc => Except.noConfusion hc)
  | .error _, .ok _ => .isFalse (fun hc => Except.noConfusion hc)

/-- Whether an `Except` is a success. -/
def exOk {ε α : Type} : Except ε α → Bool
  | .ok _ => true
  | .error _ => false

/-- Helper proposition: the computation succeeded and its value satisfies `p`. -/
def onOk {ε α : Type} (e : Except ε α) (p : α → Prop) : Prop :=
  match e with
  | .ok a => p a
  | .error _ => False

/-! ## Domain models (src/domain/models) -/

/-- Circuit value object (src/domain/models/Circuit.ts).  The `abi` field is
opaque to all modelled code and is omitted; `bytecode` is the byte array. -/
structure Circuit where
  name : String
  bytecode : List Nat
  constraints : Int
  bytecodeSize : Int
  deriving DecidableEq, Repr

/-- Witness value object (src/domain/models/ProofResult.ts). -/
structure Witness where
  data : List Nat
  generationTimeMs : Rat
  deriving DecidableEq, Repr

/-- `Witness.size` getter. -/
def Witness.size (w : Witness) : Nat := w.data.length

/-- The `Witness` constructor with its validation. -/
def Witness.create (data : List Nat) (generationTimeMs : Rat) : Except JsError Witness :=
  if data.length = 0 then .error (.plain "Witness data cannot be empty")
  else if generationTimeMs < 0 then .error (.plain "Generation time cannot be negative")
  else .ok ⟨data, generationTimeMs⟩

/-- ProofResult value object (src/domain/models/ProofResult.ts), fields of an
already-constructed instance. -/
structure ProofResult where
  proof : List Nat
  publicInputs : List Nat
  generationTimeMs : Rat
  verified : Bool
  verificationTimeMs : Rat
  deriving DecidableEq, Repr

/-- `ProofResult.proofSize` getter. -/
def ProofResult.proofSize (p : ProofResult) : Nat := p.proof.length

/-- `ProofResult.isValid` getter. -/
def ProofResult.isValid (p : ProofResult) : Bool :=
  p.verified && decide (0 < p.proof.length)

/-- The `ProofResult` constructor with its validation: it throws on an empty
proof and on a negative generation time. -/
def ProofResult.create (proof publicInputs : List Nat) (generationTimeMs : Rat)
    (verified : Bool) (verificationTimeMs : Rat) : Except JsError ProofResult :=
  if proof.length = 0 then .error (.plain "Proof cannot be empty")
  else if generationTimeMs < 0 then .error (.plain "Generation time cannot be negative")
  else .ok ⟨proof, publicInputs, generationTimeMs, verified, verificationTimeMs⟩

/-- A `FailedProofResult` instance: the subclass adds the `error` field to the
base-class fields. -/
structure FailedProofResult where
  error : String
  base : ProofResult
  deriving DecidableEq, Repr

/-- The `FailedProofResult` constructor: it calls the base `ProofResult`
constructor (`super`) with an empty proof array, empty public inputs,
`verified = false` and verification time 0, so the base-class validation runs
on those arguments. -/
def FailedProofResult.create (error : String) (generationTimeMs : Rat) :
    Except JsError FailedProofResult :=
  (ProofResult.create [] [] generationTimeMs false 0).map (fun b => ⟨error, b⟩)

/-- `ProofResult.failed(error, generationTimeMs)` static factory. -/
def ProofResult.failed (error : String) (generationTimeMs : Rat) :
    Except JsError FailedProofResult :=
  FailedProofResult.create error generationTimeMs

/-! ## Benchmark result models (src/domain/models/Circuit.ts, second half) -/

/-- Field-by-field memory difference. -/
structure MemoryDelta where
  heapUsed : Rat
  heapTotal : Rat
  extMem : Rat
  rss : Rat
  deriving DecidableEq, Repr

/-- The `MemoryUsage` interface: before/after snapshots plus delta. -/
structure MemoryUsage where
  before : MemSnapshot
  after : MemSnapshot
  delta : MemoryDelta
  deriving DecidableEq, Repr

/-- One benchmark stage record. -/
structure BenchmarkStage where
  name : String
  timeMs : Rat
  memoryUsage : MemoryUsage
  success : Bool
  error : Option String
  deriving DecidableEq, Repr

/-- The `BenchmarkTotals` interface. -/
structure BenchmarkTotals where
  timeMs : Rat
  memoryPeak : Rat
  proofSize : Nat
  witnessSize : Nat
  deriving DecidableEq, Repr

/-- The `BenchmarkMetadata` interface. -/
structure BenchmarkMetadata where
  constraints : Int
  bytecodeSize : Int
  threads : Int
  runs : Nat
  nodeVersion : String
  platform : String
  deriving DecidableEq, Repr

/-- The `BenchmarkResult` entity (its `timestamp : Date` field is wall-clock
environment data never read by modelled code and is omitted). -/
structure BenchmarkResult where
  circuitName : String
  backend : String
  stages : List BenchmarkStage
  totals : BenchmarkTotals
  metadata : BenchmarkMetadata
  deriving DecidableEq, Repr

/-! ## Stage profiler (src/infrastructure/profiling/PerformanceProfiler.ts) -/

/-- `StageResult<T>`. -/
structure StageResult (α : Type) where
  stage : String
  timeMs : Rat
  memoryBefore : MemSnapshot
  memoryAfter : MemSnapshot
  memoryDelta : MemoryDelta
  result : α
  deriving DecidableEq

/-- The fieldwise `after - before` delta computed inside `timeStage`. -/
def memDelta (before after : MemSnapshot) : MemoryDelta :=
  { heapUsed := after.heapUsed - before.heapUsed
    heapTotal := after.heapTotal - before.heapTotal
    extMem := after.extMem - before.extMem
    rss := after.rss - before.rss }

/-- `PerformanceProfiler.timeStage`: snapshot memory and the clock, await the
operation, snapshot again.  On success return the `StageResult`; on failure
re-throw the stage-annotated error (the source also reads
`process.memoryUsage()` in the catch path and discards it, and emits
performance marks/measures consumed by no modelled code). -/
def timeStage {α : Type} (mem : Rat → MemSnapshot) (stageName : String)
    (asyncFn : Rat → Except JsError α × Rat) (clock : Rat) :
    Except JsError (StageResult α) × Rat :=
  let memoryBefore := mem clock
  let startTime := clock
  let r := asyncFn clock
  let endTime := r.2
  match r.1 with
  | .ok result =>
      let memoryAfter := mem r.2
      (.ok { stage := stageName, timeMs := endTime - startTime,
             memoryBefore := memoryBefore, memoryAfter := memoryAfter,
             memoryDelta := memDelta memoryBefore memoryAfter, result := result }, r.2)
  | .error e =>
      (.error (.stageFailure stageName (endTime - startTime) e.message), r.2)

/-! ## Collaborator environment

The repositories (CircuitRepository, ProofSystemRepository) are external
collaborators; their behaviour for one run is given by the environment: each
repository operation has a wall-clock duration and resolves or rejects. -/

/-- Behaviour of one awaited external operation. -/
structure OpBehavior (α : Type) where
  dur : Rat
  out : Except JsError α

/-- Await one external operation: its outcome, with the clock advanced by its
duration. -/
def runOp {α : Type} (op : OpBehavior α) (clock : Rat) : Except JsError α × Rat :=
  (op.out, clock + op.dur)

/-- Environment of one benchmark run: the behaviour of every repository
operation the run awaits, plus the process-memory state as a function of the
clock. -/
structure RunEnv where
  existsRes : OpBehavior Bool
  loadRes : OpBehavior Circuit
  inputsRes : OpBehavior (List (String × String))
  initRes : OpBehavior Unit
  witnessRes : OpBehavior Witness
  proveRes : OpBehavior ProofResult
  verifyRes : OpBehavior Bool
  mem : Rat → MemSnapshot

/-- All repository operations of the run resolve, and verification resolves
`true`. -/
def RunEnv.allOkB (env : RunEnv) : Bool :=
  decide (env.existsRes.out = Except.ok true) && exOk env.loadRes.out
    && exOk env.inputsRes.out && exOk env.initRes.out && exOk env.witnessRes.out
    && exOk env.proveRes.out && decide (env.verifyRes.out = Except.ok true)

/-! ## Application services -/

/-- `CircuitService.loadCircuit`: await `exists`, throw CircuitNotFoundError
if absent, else await `load`; the catch rethrows CircuitNotFoundError
unchanged and wraps anything else in CircuitLoadError. -/
def CircuitService.loadCircuit (env : RunEnv) (circuitName : String) (clock : Rat) :
    Except JsError Circuit × Rat :=
  let r1 := runOp env.existsRes clock
  match r1.1 with
  | .error e =>
      (.error (if e.isCircuitNotFound then e else circuitLoadError circuitName e), r1.2)
  | .ok b =>
      if b then
        let r2 := runOp env.loadRes r1.2
        match r2.1 with
        | .error e =>
            (.error (if e.isCircuitNotFound then e else circuitLoadError circuitName e), r2.2)
        | .ok circuit => (.ok circuit, r2.2)
      else
        (.error (circuitNotFoundError circuitName), r1.2)

/-- `CircuitService.getTestInputs`: await the repository fetch; the catch
wraps any failure in `CircuitLoadError("Failed to load test inputs for " ++
circuitName, cause)` (the source passes that string in the constructor's
circuitName position). -/
def CircuitService.getTestInputs (env : RunEnv) (circuitName : String) (clock : Rat) :
    Except JsError (List (String × String)) × Rat :=
  let r1 := runOp env.inputsRes clock
  match r1.1 with
  | .ok v => (.ok v, r1.2)
  | .error e =>
      (.error (circuitLoadError ("Failed to load test inputs for " ++ circuitName) e), r1.2)

/-- `ProofService.initialize` (carrying the source method name would end in a
reserved word here, hence the `Backend` suffix): failures are wrapped in
`ProofGenerationError('Failed to initialize proof system', cause)`. -/
def ProofService.initializeBackend (env : RunEnv) (clock : Rat) : Except JsError Unit × Rat :=
  let r1 := runOp env.initRes clock
  (match r1.1 with
   | .ok _ => .ok ()
   | .error e => .error (proofGenerationError "Failed to initialize proof system" e), r1.2)

/-- `ProofService.generateWitness`: failures are wrapped in
`WitnessGenerationError("Failed to generate witness for circuit " ++
circuit.name, cause)`. -/
def ProofService.generateWitness (env : RunEnv) (circuit : Circuit) (clock : Rat) :
    Except JsError Witness × Rat :=
  let r1 := runOp env.witnessRes clock
  (match r1.1 with
   | .ok w => .ok w
   | .error e =>
       .error (witnessGenerationError
         ("Failed to generate witness for circuit " ++ circuit.name) e), r1.2)

/-- `ProofService.generateProof`: failures are wrapped in
`ProofGenerationError('Failed to generate proof from witness', cause)`. -/
def ProofService.generateProof (env : RunEnv) (clock : Rat) :
    Except JsError ProofResult × Rat :=
  let r1 := runOp env.proveRes clock
  (match r1.1 with
   | .ok p => .ok p
   | .error e => .error (proofGenerationError "Failed to generate proof from witness" e), r1.2)

/-- `ProofService.verifyProof`: returns the repository's boolean; failures are
wrapped in `ProofVerificationError('Failed to verify proof', cause)`. -/
def ProofService.verifyProof (env : RunEnv) (clock : Rat) : Except JsError Bool × Rat :=
  let r1 := runOp env.verifyRes clock
  (match r1.1 with
   | .ok b => .ok b
   | .error e => .error (proofVerificationError "Failed to verify proof" e), r1.2)

/-- `ProofService.cleanup`: await the repository cleanup; any error is caught
and logged (`logger.warn`), never re-thrown.  Returns whether a warning was
logged, with the advanced clock. -/
def ProofService.cleanup (cleanupRes : OpBehavior Unit) (clock : Rat) : Bool × Rat :=
  let r1 := runOp cleanupRes clock
  (match r1.1 with
   | .ok _ => false
   | .error _ => true, r1.2)

/-! ## Benchmark orchestrator (BenchmarkOrchestrator) -/

/-- `BenchmarkConfiguration` (`runs` is used only as a loop bound, so the
non-positive `parseInt` results all behave as zero runs and are modelled by
`runs = 0`). -/
structure BenchmarkConfiguration where
  circuitName : String
  backend : String
  runs : Nat
  threads : Int
  verbose : Bool
  deriving DecidableEq, Repr

/-- Runtime environment constants read for the metadata
(`process.version`, `process.platform`). -/
structure SessionConsts where
  nodeVersion : String
  platform : String
  deriving DecidableEq, Repr

/-- `BenchmarkOrchestrator.convertToStage`. -/
def convertToStage {α : Type} (stageResult : StageResult α) : BenchmarkStage :=
  { name := stageResult.stage
    timeMs := stageResult.timeMs
    memoryUsage := { before := stageResult.memoryBefore
                     after := stageResult.memoryAfter
                     delta := stageResult.memoryDelta }
    success := true
    error := none }

/-- `Math.max(...)` over a list (`Math.max()` of an empty spread is
`-Infinity`; the orchestrator only applies it to the non-empty stage list, so
the empty case is unreachable and mapped to 0). -/
def listMax : List Rat → Rat
  | [] => 0
  | [x] => x
  | x :: y :: xs => max x (listMax (y :: xs))

/-- `BenchmarkOrchestrator.executeSingleRun`: the fixed 5-stage pipeline.
Each stage runs through `timeStage`; the test-inputs fetch between the load
and init stages is awaited directly, outside any `timeStage` call.  A `false`
verification outcome is turned into a thrown
`new Error('Proof verification failed')`.  On success the totals are the sum
of the stage times, the maximum post-stage heap-used value, the proof size
and the witness size. -/
def executeSingleRun (env : RunEnv) (consts : SessionConsts)
    (config : BenchmarkConfiguration) (clock : Rat) :
    Except JsError BenchmarkResult × Rat :=
  match timeStage env.mem "circuit-load" (CircuitService.loadCircuit env config.circuitName) clock with
  | (.error e, c) => (.error e, c)
  | (.ok loadResult, c1) =>
  let circuit := loadResult.result
  match CircuitService.getTestInputs env config.circuitName c1 with
  | (.error e, c) => (.error e, c)
  | (.ok _inputs, c2) =>
  match timeStage env.mem "backend-init" (ProofService.initializeBackend env) c2 with
  | (.error e, c) => (.error e, c)
  | (.ok initResult, c3) =>
  match timeStage env.mem "witness-generate" (ProofService.generateWitness env circuit) c3 with
  | (.error e, c) => (.error e, c)
  | (.ok witnessResult, c4) =>
  let witness := witnessResult.result
  match timeStage env.mem "proof-generate" (ProofService.generateProof env) c4 with
  | (.error e, c) => (.error e, c)
  | (.ok proofResult, c5) =>
  let proof := proofResult.result
  match timeStage env.mem "proof-verify" (ProofService.verifyProof env) c5 with
  | (.error e, c) => (.error e, c)
  | (.ok verifyResult, c6) =>
  let stages : List BenchmarkStage :=
    [convertToStage loadResult, convertToStage initResult, convertToStage witnessResult,
     convertToStage proofResult, convertToStage verifyResult]
  if verifyResult.result then
    let totalTime := (stages.map BenchmarkStage.timeMs).sum
    let peakMemory := listMax (stages.map (fun s => s.memoryUsage.after.heapUsed))
    (.ok { circuitName := config.circuitName
           backend := config.backend
           stages := stages
           totals := { timeMs := totalTime, memoryPeak := peakMemory,
                       proofSize := proof.proofSize, witnessSize := witness.size }
           metadata := { constraints := circuit.constraints
                         bytecodeSize := circuit.bytecodeSize
                         threads := config.threads
                         runs := 1
                         nodeVersion := consts.nodeVersion
                         platform := consts.platform } }, c6)
  else
    (.error (.plain "Proof verification failed"), c6)

/-- `r.stages[index].timeMs` as read by `aggregateResults` (an out-of-bounds
index would fault in the source; every aggregated run has the same 5-stage
shape, so the 0 default is unreachable). -/
def BenchmarkResult.stageTimeAt (r : BenchmarkResult) (i : Nat) : Rat :=
  match r.stages.get? i with
  | some s => s.timeMs
  | none => 0

/-- The `firstResult.stages.map((stage, index) => ...)` body of
`aggregateResults`: each aggregated stage keeps the first run's fields and
replaces `timeMs` by the mean of that index's time across all runs. -/
def avgStagesAux (results : List BenchmarkResult) (n : Rat) :
    List BenchmarkStage → Nat → List BenchmarkStage
  | [], _ => []
  | stage :: rest, index =>
      { name := stage.name
        timeMs := (results.map (fun r => r.stageTimeAt index)).sum / n
        memoryUsage := stage.memoryUsage
        success := stage.success
        error := stage.error } :: avgStagesAux results n rest (index + 1)

/-- `BenchmarkOrchestrator.aggregateResults`.  A single result is returned
unchanged.  On an empty list the source faults reading `results[0].stages`
(modelled as a thrown TypeError); the orchestrator only reaches that case
when `config.runs = 0`. -/
def aggregateResults (results : List BenchmarkResult)
    (config : BenchmarkConfiguration) : Except JsError BenchmarkResult :=
  match results with
  | [] => .error (.plain "TypeError: Cannot read properties of undefined (reading 'stages')")
  | [r] => .ok r
  | firstResult :: _ :: _ =>
      let n : Rat := (results.length : Rat)
      .ok { circuitName := config.circuitName
            backend := config.backend
            stages := avgStagesAux results n firstResult.stages 0
            totals := { timeMs := (results.map (fun r => r.totals.timeMs)).sum / n
                        memoryPeak := (results.map (fun r => r.totals.memoryPeak)).sum / n
                        proofSize := firstResult.totals.proofSize
                        witnessSize := firstResult.totals.witnessSize }
            metadata := { firstResult.metadata with runs := results.length } }

/-- The `for (let i = 0; i < config.runs; i++)` loop of `executeBenchmark`,
from run index `i` with `fuel` runs left: execute a run, stop on its error,
otherwise sleep 100 ms when another run follows and continue.  Returns the
collected per-run results in order. -/
def runsFrom (runEnvF : Nat → RunEnv) (consts : SessionConsts)
    (config : BenchmarkConfiguration) :
    Nat → Nat → Rat → Except JsError (List BenchmarkResult) × Rat
  | _, 0, clock => (.ok [], clock)
  | i, fuel + 1, clock =>
    match executeSingleRun (runEnvF i) consts config clock with
    | (.error e, c) => (.error e, c)
    | (.ok runResult, c) =>
      let c2 := if i < config.runs - 1 then c + 100 else c
      match runsFrom runEnvF consts config (i + 1) fuel c2 with
      | (.error e, c3) => (.error e, c3)
      | (.ok rest, c3) => (.ok (runResult :: rest), c3)

/-- Environment of one `executeBenchmark` session: per-run collaborator
behaviour, the repository cleanup behaviour, and the runtime constants. -/
structure SessionEnv where
  runEnv : Nat → RunEnv
  cleanupRes : OpBehavior Unit
  consts : SessionConsts

/-- Outcome of one `executeBenchmark` call: the returned result or thrown
error, how many times `proofService.cleanup()` was invoked, whether a cleanup
failure was logged, and the final clock. -/
structure SessionResult where
  outcome : Except JsError BenchmarkResult
  cleanupCalls : Nat
  cleanupWarned : Bool
  finalClock : Rat

/-- `BenchmarkOrchestrator.executeBenchmark`: run the loop, aggregate on
success; the catch logs and re-throws the same error; the finally block
invokes `proofService.cleanup()` (its single call site) on every path. -/
def executeBenchmark (env : SessionEnv) (config : BenchmarkConfiguration)
    (clock : Rat) : SessionResult :=
  let runsOut := runsFrom env.runEnv env.consts config 0 config.runs clock
  let tryOutcome : Except JsError BenchmarkResult :=
    match runsOut.1 with
    | .error e => .error e
    | .ok allResults => aggregateResults allResults config
  let cleanupOut := ProofService.cleanup env.cleanupRes runsOut.2
  { outcome := tryOutcome
    cleanupCalls := 1
    cleanupWarned := cleanupOut.1
    finalClock := cleanupOut.2 }

/-! ## Sample environments (used by the concrete witnesses) -/

/-- A flat memory profile. -/
def memZero : Rat → MemSnapshot := fun _ => ⟨0, 0, 0, 0⟩

/-- A sample circuit. -/
def sampleCircuit : Circuit := ⟨"simple-hash", [1, 2, 3], 3, 3⟩

/-- A run whose collaborators all succeed (stage durations 1+2, 2, 16, 809,
150 ms). -/
def okRunEnv : RunEnv :=
  { existsRes := ⟨1, .ok true⟩
    loadRes := ⟨2, .ok sampleCircuit⟩
    inputsRes := ⟨1, .ok [("x", "1")]⟩
    initRes := ⟨2, .ok ()⟩
    witnessRes := ⟨16, .ok ⟨[5, 6], 16⟩⟩
    proveRes := ⟨809, .ok ⟨[7, 8, 9], [1], 809, false, 0⟩⟩
    verifyRes := ⟨150, .ok true⟩
    mem := memZero }

/-- Sample runtime constants. -/
def sampleConsts : SessionConsts := ⟨"v20.0.0", "linux"⟩

/-- Configuration with a single run. -/
def sampleConfig1 : BenchmarkConfiguration := ⟨"simple-hash", "UltraHonk", 1, 1, false⟩

/-- Configuration with three runs. -/
def sampleConfig3 : BenchmarkConfiguration := ⟨"simple-hash", "UltraHonk", 3, 1, false⟩

/-- Session whose runs all succeed. -/
def sampleEnv : SessionEnv := ⟨fun _ => okRunEnv, ⟨1, .ok ()⟩, sampleConsts⟩

/-- A run identical to `okRunEnv` except that verification resolves `false`. -/
def badVerifyRunEnv : RunEnv := { okRunEnv with verifyRes := ⟨150, .ok false⟩ }

/-- Session whose runs all report an unverified proof. -/
def badVerifyEnv : SessionEnv := ⟨fun _ => badVerifyRunEnv, ⟨1, .ok ()⟩, sampleConsts⟩

/-- A run identical to `okRunEnv` except that the witness generation rejects. -/
def badWitnessRunEnv : RunEnv :=
  { okRunEnv with witnessRes := ⟨16, .error (.plain "acvm crashed")⟩ }

/-- Session whose runs all fail at witness generation. -/
def badWitnessEnv : SessionEnv := ⟨fun _ => badWitnessRunEnv, ⟨1, .ok ()⟩, sampleConsts⟩

/-- A run identical to `okRunEnv` except that the test-inputs fetch rejects. -/
def badInputsRunEnv : RunEnv :=
  { okRunEnv with inputsRes := ⟨1, .error (.plain "Prover.toml not found")⟩ }

/-- Session whose repository cleanup rejects. -/
def badCleanupEnv : SessionEnv :=
  ⟨fun _ => okRunEnv, ⟨1, .error (.plain "backend destroy failed")⟩, sampleConsts⟩

/-! ## Helper lemmas -/

theorem list_len5 {α : Type} {l : List α} (h : l.length = 5) :
    ∃ a b c d e, l = [a, b, c, d, e] := by
  rcases l with _ | ⟨a, _ | ⟨b, _ | ⟨c, _ | ⟨d, _ | ⟨e, _ | ⟨f, t⟩⟩⟩⟩⟩⟩ <;> simp_all

theorem sum_map_add {α : Type} (l : List α) (f g : α → Rat) :
    (l.map (fun x => f x + g x)).sum = (l.map f).sum + (l.map g).sum := by
  induction l with
  | nil => simp
  | cons a t ih => simp only [List.map_cons, List.sum_cons, ih]; ring

theorem sum_map_const {α : Type} (l : List α) (t : Rat) :
    (l.map (fun _ => t)).sum = (l.length : Rat) * t := by
  induction l with
  | nil => simp
  | cons a u ih => simp only [List.map_cons, List.sum_cons, ih, List.length_cons]
                   push_cast
                   ring

theorem le_listMax {l : List Rat} {x : Rat} (hx : x ∈ l) : x ≤ listMax l := by
  induction l with
  | nil => cases hx
  | cons a t ih =>
    rcases t with _ | ⟨b, u⟩
    · simp at hx
      simp [listMax, hx]
    · rcases List.mem_cons.mp hx with h | h
      · subst h
        exact le_max_left _ _
      · exact le_trans (ih h) (le_max_right _ _)

theorem listMax_mem {l : List Rat} (h : l ≠ []) : listMax l ∈ l := by
  induction l with
  | nil => exact absurd rfl h
  | cons a t ih =>
    rcases t with _ | ⟨b, u⟩
    · simp [listMax]
    · have hm : listMax (a :: b :: u) = max a (listMax (b :: u)) := rfl
      rcases le_total a (listMax (b :: u)) with hle | hle
      · rw [hm, max_eq_right hle]
        exact List.mem_cons_of_mem _ (ih (by simp))
      · rw [hm, max_eq_left hle]
        exact List.mem_cons_self _ _

theorem stageTimeAt_of_map {r : BenchmarkResult} {ts : List Rat}
    (h : r.stages.map BenchmarkStage.timeMs = ts) (i : Nat) :
    r.stageTimeAt i = (ts.get? i).getD 0 := by
  unfold BenchmarkResult.stageTimeAt
  rw [← h, List.get?_map]
  cases r.stages.get? i <;> simp




theorem executeSingleRun_spec {env : RunEnv} {consts : SessionConsts}
    {config : BenchmarkConfiguration} {clock : Rat} {r : BenchmarkResult} {c2 : Rat}
    (h : executeSingleRun env consts config clock = (Except.ok r, c2)) :
    env.existsRes.out = Except.ok true
  ∧ env.initRes.out = Except.ok ()
  ∧ env.verifyRes.out = Except.ok true
  ∧ (∃ circuit, env.loadRes.out = Except.ok circuit
      ∧ r.metadata.constraints = circuit.constraints
      ∧ r.metadata.bytecodeSize = circuit.bytecodeSize)
  ∧ (∃ inputs, env.inputsRes.out = Except.ok inputs)
  ∧ (∃ w, env.witnessRes.out = Except.ok w ∧ r.totals.witnessSize = w.size)
  ∧ (∃ p, env.proveRes.out = Except.ok p ∧ r.totals.proofSize = p.proofSize)
  ∧ r.circuitName = config.circuitName
  ∧ r.backend = config.backend
  ∧ r.stages.map BenchmarkStage.name =
      ["circuit-load", "backend-init", "witness-generate", "proof-generate", "proof-verify"]
  ∧ r.stages.map BenchmarkStage.timeMs =
      [env.existsRes.dur + env.loadRes.dur, env.initRes.dur, env.witnessRes.dur,
       env.proveRes.dur, env.verifyRes.dur]
  ∧ r.stages.map (fun s => s.memoryUsage.before) =
      [env.mem clock,
       env.mem (clock + env.existsRes.dur + env.loadRes.dur + env.inputsRes.dur),
       env.mem (clock + env.existsRes.dur + env.loadRes.dur + env.inputsRes.dur
         + env.initRes.dur),
       env.mem (clock + env.existsRes.dur + env.loadRes.dur + env.inputsRes.dur
         + env.initRes.dur + env.witnessRes.dur),
       env.mem (clock + env.existsRes.dur + env.loadRes.dur + env.inputsRes.dur
         + env.initRes.dur + env.witnessRes.dur + env.proveRes.dur)]
  ∧ r.stages.map (fun s => s.memoryUsage.after) =
      [env.mem (clock + env.existsRes.dur + env.loadRes.dur),
       env.mem (clock + env.existsRes.dur + env.loadRes.dur + env.inputsRes.dur
         + env.initRes.dur),
       env.mem (clock + env.existsRes.dur + env.loadRes.dur + env.inputsRes.dur
         + env.initRes.dur + env.witnessRes.dur),
       env.mem (clock + env.existsRes.dur + env.loadRes.dur + env.inputsRes.dur
         + env.initRes.dur + env.witnessRes.dur + env.proveRes.dur),
       env.mem (clock + env.existsRes.dur + env.loadRes.dur + env.inputsRes.dur
         + env.initRes.dur + env.witnessRes.dur + env.proveRes.dur + env.verifyRes.dur)]
  ∧ r.totals.timeMs = (r.stages.map BenchmarkStage.timeMs).sum
  ∧ r.totals.memoryPeak = listMax (r.stages.map (fun s => s.memoryUsage.after.heapUsed))
  ∧ r.metadata.runs = 1
  ∧ r.metadata.threads = config.threads
  ∧ r.metadata.nodeVersion = consts.nodeVersion
  ∧ r.metadata.platform = consts.platform
  ∧ c2 = clock + env.existsRes.dur + env.loadRes.dur + env.inputsRes.dur
      + env.initRes.dur + env.witnessRes.dur + env.proveRes.dur + env.verifyRes.dur := by
  rcases hex : env.existsRes.out with e | b
  · exfalso
    simp [executeSingleRun, timeStage, CircuitService.loadCircuit, runOp, hex] at h
  rcases b with _ | _
  · exfalso
    simp [executeSingleRun, timeStage, CircuitService.loadCircuit, runOp, hex] at h
  rcases hld : env.loadRes.out with e | circuit
  · exfalso
    simp [executeSingleRun, timeStage, CircuitService.loadCircuit, runOp, hex, hld] at h
  rcases hin : env.inputsRes.out with e | inputs
  · exfalso
    simp [executeSingleRun, timeStage, CircuitService.loadCircuit,
          CircuitService.getTestInputs, runOp, hex, hld, hin] at h
  rcases hini : env.initRes.out with e | u
  · exfalso
    simp [executeSingleRun, timeStage, CircuitService.loadCircuit,
          CircuitService.getTestInputs, ProofService.initializeBackend, runOp, hex, hld, hin, hini] at h
  rcases hw : env.witnessRes.out with e | w
  · exfalso
    simp [executeSingleRun, timeStage, CircuitService.loadCircuit,
          CircuitService.getTestInputs, ProofService.initializeBackend,
          ProofService.generateWitness, runOp, hex, hld, hin, hini, hw] at h
  rcases hp : env.proveRes.out with e | p
  · exfalso
    simp [executeSingleRun, timeStage, CircuitService.loadCircuit,
          CircuitService.getTestInputs, ProofService.initializeBackend,
          ProofService.generateWitness, ProofService.generateProof, runOp,
          hex, hld, hin, hini, hw, hp] at h
  rcases hv : env.verifyRes.out with e | vb
  · exfalso
    simp [executeSingleRun, timeStage, CircuitService.loadCircuit,
          CircuitService.getTestInputs, ProofService.initializeBackend,
          ProofService.generateWitness, ProofService.generateProof,
          ProofService.verifyProof, runOp, hex, hld, hin, hini, hw, hp, hv] at h
  rcases vb with _ | _
  · exfalso
    simp [executeSingleRun, timeStage, CircuitService.loadCircuit,
          CircuitService.getTestInputs, ProofService.initializeBackend,
          ProofService.generateWitness, ProofService.generateProof,
          ProofService.verifyProof, runOp, hex, hld, hin, hini, hw, hp, hv] at h
  simp [executeSingleRun, timeStage, CircuitService.loadCircuit,
        CircuitService.getTestInputs, ProofService.initializeBackend,
        ProofService.generateWitness, ProofService.generateProof,
        ProofService.verifyProof, runOp, hex, hld, hin, hini, hw, hp, hv,
        Prod.ext_iff] at h
  obtain ⟨hr, hc⟩ := h
  subst hc
  subst hr
  refine ⟨rfl, rfl, rfl, ⟨circuit, rfl, rfl, rfl⟩, ⟨inputs, rfl⟩, ⟨w, rfl, rfl⟩, ⟨p, rfl, rfl⟩,
    rfl, rfl, ?_, ?_, ?_, ?_, ?_, ?_, rfl, rfl, rfl, rfl, ?_⟩
  · simp [convertToStage]
  · simp [convertToStage]
    ring_nf
  · simp [convertToStage]
  · simp [convertToStage]
  · simp [convertToStage]
  · simp [convertToStage, listMax]
  · ring_nf



theorem executeSingleRun_verify_false {env : RunEnv} {consts : SessionConsts}
    {config : BenchmarkConfiguration} {clock : Rat} {circuit : Circuit}
    {inputs : List (String × String)} {w : Witness} {p : ProofResult}
    (hex : env.existsRes.out = Except.ok true)
    (hld : env.loadRes.out = Except.ok circuit)
    (hin : env.inputsRes.out = Except.ok inputs)
    (hini : env.initRes.out = Except.ok ())
    (hw : env.witnessRes.out = Except.ok w)
    (hp : env.proveRes.out = Except.ok p)
    (hv : env.verifyRes.out = Except.ok false) :
    executeSingleRun env consts config clock =
      (Except.error (JsError.plain "Proof verification failed"),
       clock + env.existsRes.dur + env.loadRes.dur + env.inputsRes.dur + env.initRes.dur
         + env.witnessRes.dur + env.proveRes.dur + env.verifyRes.dur) := by
  simp [executeSingleRun, timeStage, CircuitService.loadCircuit, CircuitService.getTestInputs,
        ProofService.initializeBackend, ProofService.generateWitness, ProofService.generateProof,
        ProofService.verifyProof, runOp, hex, hld, hin, hini, hw, hp, hv]

theorem executeSingleRun_witness_error {env : RunEnv} {consts : SessionConsts}
    {config : BenchmarkConfiguration} {clock : Rat} {circuit : Circuit}
    {inputs : List (String × String)} {e : JsError}
    (hex : env.existsRes.out = Except.ok true)
    (hld : env.loadRes.out = Except.ok circuit)
    (hin : env.inputsRes.out = Except.ok inputs)
    (hini : env.initRes.out = Except.ok ())
    (hw : env.witnessRes.out = Except.error e) :
    executeSingleRun env consts config clock =
      (Except.error (JsError.stageFailure "witness-generate" env.witnessRes.dur
         (witnessGenerationError ("Failed to generate witness for circuit " ++ circuit.name) e).message),
       clock + env.existsRes.dur + env.loadRes.dur + env.inputsRes.dur + env.initRes.dur
         + env.witnessRes.dur) := by
  simp [executeSingleRun, timeStage, CircuitService.loadCircuit, CircuitService.getTestInputs,
        ProofService.initializeBackend, ProofService.generateWitness, runOp, hex, hld, hin, hini, hw]

theorem executeSingleRun_inputs_error {env : RunEnv} {consts : SessionConsts}
    {config : BenchmarkConfiguration} {clock : Rat} {circuit : Circuit} {e : JsError}
    (hex : env.existsRes.out = Except.ok true)
    (hld : env.loadRes.out = Except.ok circuit)
    (hin : env.inputsRes.out = Except.error e) :
    executeSingleRun env consts config clock =
      (Except.error (circuitLoadError ("Failed to load test inputs for " ++ config.circuitName) e),
       clock + env.existsRes.dur + env.loadRes.dur + env.inputsRes.dur) := by
  simp [executeSingleRun, timeStage, CircuitService.loadCircuit, CircuitService.getTestInputs,
        runOp, hex, hld, hin]

theorem runsFrom_ok {runEnvF : Nat → RunEnv} {consts : SessionConsts}
    {config : BenchmarkConfiguration} :
    ∀ {fuel i clock rs cEnd},
      runsFrom runEnvF consts config i fuel clock = (Except.ok rs, cEnd) →
      rs.length = fuel ∧
      ∀ j, j < fuel → ∃ r clockj cj, rs.get? j = some r ∧
        executeSingleRun (runEnvF (i + j)) consts config clockj = (Except.ok r, cj) := by
  intro fuel
  induction fuel with
  | zero =>
    intro i clock rs cEnd h
    simp only [runsFrom, Prod.mk.injEq] at h
    obtain ⟨h1, _⟩ := h
    injection h1 with h1
    subst h1
    exact ⟨rfl, fun j hj => absurd hj (by omega)⟩
  | succ fuel ih =>
    intro i clock rs cEnd h
    simp only [runsFrom] at h
    rcases hrun : executeSingleRun (runEnvF i) consts config clock with ⟨out, c⟩
    rw [hrun] at h
    rcases out with e | r0
    · simp at h
    · simp only at h
      rcases hrec : runsFrom runEnvF consts config (i + 1) fuel
          (if i < config.runs - 1 then c + 100 else c) with ⟨out2, c3⟩
      rw [hrec] at h
      rcases out2 with e | rest
      · simp at h
      · simp only [Prod.mk.injEq] at h
        obtain ⟨hrs, hc⟩ := h
        injection hrs with hrs
        subst hrs
        obtain ⟨hlen, hall⟩ := ih hrec
        refine ⟨by simp [hlen], ?_⟩
        intro j hj
        rcases j with _ | j
        · exact ⟨r0, clock, c, by simp, by simpa using hrun⟩
        · obtain ⟨r, ck, cj, hget, hrunj⟩ := hall j (by omega)
          refine ⟨r, ck, cj, by simpa using hget, ?_⟩
          have hidx : i + 1 + j = i + (j + 1) := by omega
          rwa [hidx] at hrunj

theorem outcome_ok_cases {env : SessionEnv} {config : BenchmarkConfiguration}
    {clock : Rat} {r : BenchmarkResult}
    (h : (executeBenchmark env config clock).outcome = Except.ok r) :
    ∃ rs cEnd, runsFrom env.runEnv env.consts config 0 config.runs clock = (Except.ok rs, cEnd)
      ∧ aggregateResults rs config = Except.ok r := by
  rcases hrs : runsFrom env.runEnv env.consts config 0 config.runs clock with ⟨out, cEnd⟩
  simp only [executeBenchmark, hrs] at h
  rcases out with e | rs
  · simp at h
  · exact ⟨rs, cEnd, rfl, by simpa using h⟩


/-! ## Aggregation lemmas -/

theorem sum_map_add5 (l : List BenchmarkResult) (f0 f1 f2 f3 f4 : BenchmarkResult → Rat) :
    (l.map (fun x => f0 x + (f1 x + (f2 x + (f3 x + f4 x))))).sum
      = (l.map f0).sum + ((l.map f1).sum + ((l.map f2).sum + ((l.map f3).sum + (l.map f4).sum))) := by
  induction l with
  | nil => simp
  | cons a t ih =>
    simp only [List.map_cons, List.sum_cons, ih]
    ring

theorem run_time_decomp {x : BenchmarkResult} (h5 : x.stages.length = 5)
    (hsum : x.totals.timeMs = (x.stages.map BenchmarkStage.timeMs).sum) :
    x.totals.timeMs = x.stageTimeAt 0 + (x.stageTimeAt 1 + (x.stageTimeAt 2
      + (x.stageTimeAt 3 + x.stageTimeAt 4))) := by
  obtain ⟨a, b, c, d, e, hx⟩ := list_len5 h5
  rw [hsum]
  simp [BenchmarkResult.stageTimeAt, hx]

theorem aggregate_spec {rs : List BenchmarkResult} {config : BenchmarkConfiguration}
    {r first second : BenchmarkResult} {rest : List BenchmarkResult}
    (hrs : rs = first :: second :: rest)
    (hagg : aggregateResults rs config = Except.ok r) :
    r.stages = avgStagesAux rs (rs.length : Rat) first.stages 0
  ∧ r.totals.timeMs = (rs.map (fun x => x.totals.timeMs)).sum / (rs.length : Rat)
  ∧ r.totals.memoryPeak = (rs.map (fun x => x.totals.memoryPeak)).sum / (rs.length : Rat)
  ∧ r.totals.proofSize = first.totals.proofSize
  ∧ r.totals.witnessSize = first.totals.witnessSize
  ∧ r.metadata.runs = rs.length
  ∧ r.circuitName = config.circuitName
  ∧ r.backend = config.backend := by
  subst hrs
  simp only [aggregateResults] at hagg
  injection hagg with hagg
  subst hagg
  exact ⟨rfl, rfl, rfl, rfl, rfl, rfl, rfl, rfl⟩

theorem avgStagesAux_get? (results : List BenchmarkResult) (n : Rat) :
    ∀ (ss : List BenchmarkStage) (k i : Nat),
      (avgStagesAux results n ss k).get? i = (ss.get? i).map (fun s =>
        { name := s.name
          timeMs := (results.map (fun r => r.stageTimeAt (k + i))).sum / n
          memoryUsage := s.memoryUsage
          success := s.success
          error := s.error }) := by
  intro ss
  induction ss with
  | nil =>
    intro k i
    simp [avgStagesAux]
  | cons s t ih =>
    intro k i
    rcases i with _ | i
    · simp [avgStagesAux]
    · have hidx : k + 1 + i = k + (i + 1) := by omega
      have h2 := ih (k + 1) i
      rw [hidx] at h2
      simp only [avgStagesAux, List.get?_cons_succ]
      exact h2

theorem avgStagesAux_length (results : List BenchmarkResult) (n : Rat) :
    ∀ (ss : List BenchmarkStage) (k : Nat), (avgStagesAux results n ss k).length = ss.length := by
  intro ss
  induction ss with
  | nil => intro k; simp [avgStagesAux]
  | cons s t ih => intro k; simp [avgStagesAux, ih]

/-! ## Claim theorems -/

/-- C8: the claim says constructing the Failure variant via
`ProofResult.failed` succeeds for every error message and generation time
≥ 0, yielding `verified = false`.  The code contradicts it: the
`FailedProofResult` constructor passes an empty proof array to the base
`ProofResult` constructor, whose validation throws
'Proof cannot be empty', so `ProofResult.failed` always throws (for every
message and time).  The Success-variant checks do behave as claimed. -/
theorem claim8_failed_variant_always_throws :
    (∀ (err : String) (t : Rat),
        ProofResult.failed err t = Except.error (JsError.plain "Proof cannot be empty"))
  ∧ ProofResult.create [1] [] 5 true 2 = Except.ok ⟨[1], [], 5, true, 2⟩
  ∧ ProofResult.create [] [] 5 true 2 = Except.error (JsError.plain "Proof cannot be empty")
  ∧ ProofResult.create [1] [] (-1) true 2
      = Except.error (JsError.plain "Generation time cannot be negative") := by
  refine ⟨?_, by decide, by decide, by norm_num [ProofResult.create]⟩
  intro err t
  simp [ProofResult.failed, FailedProofResult.create, ProofResult.create, Except.map]

/-- C4: for a valid configuration with runCount = 1 whose run completes, the
returned result has exactly the 5 pipeline stages in order: load, init,
witness, generate, verify. -/
theorem claim4_single_run_pipeline (env : SessionEnv) (config : BenchmarkConfiguration)
    (clock : Rat) (r : BenchmarkResult)
    (hruns : config.runs = 1)
    (h : (executeBenchmark env config clock).outcome = Except.ok r) :
    r.stages.map BenchmarkStage.name =
      ["circuit-load", "backend-init", "witness-generate", "proof-generate", "proof-verify"] := by
  obtain ⟨rs, cEnd, hrs, hagg⟩ := outcome_ok_cases h
  obtain ⟨hlen, hall⟩ := runsFrom_ok hrs
  rw [hruns] at hlen hall
  rcases rs with _ | ⟨r0, _ | ⟨r1, t⟩⟩
  · simp at hlen
  · simp only [aggregateResults] at hagg
    injection hagg with hagg
    subst hagg
    obtain ⟨rj, ckj, cj, hget, hrun⟩ := hall 0 (by omega)
    simp only [List.get?] at hget
    injection hget with hget
    subst hget
    obtain ⟨-, -, -, -, -, -, -, -, -, hnames, -, -, -, -, -, -, -, -, -, -⟩ :=
      executeSingleRun_spec hrun
    exact hnames
  · simp at hlen

/-- C7: in every completed single run, Totals.memoryPeak is the maximum over
the stages of the post-stage heap-used value: it bounds every stage's
after-snapshot heap-used and is attained by one of them. -/
theorem claim7_memory_peak (env : RunEnv) (consts : SessionConsts)
    (config : BenchmarkConfiguration) (clock : Rat) (r : BenchmarkResult) (c2 : Rat)
    (h : executeSingleRun env consts config clock = (Except.ok r, c2)) :
    (∀ s ∈ r.stages, s.memoryUsage.after.heapUsed ≤ r.totals.memoryPeak)
  ∧ r.totals.memoryPeak ∈ r.stages.map (fun s => s.memoryUsage.after.heapUsed) := by
  obtain ⟨-, -, -, -, -, -, -, -, -, hnames, -, -, -, -, hpeak, -, -, -, -, -⟩ :=
    executeSingleRun_spec h
  have hne : r.stages.map (fun s => s.memoryUsage.after.heapUsed) ≠ [] := by
    intro hnil
    have : r.stages = [] := by
      cases hq : r.stages
      · rfl
      · rw [hq] at hnil; simp at hnil
    rw [this] at hnames
    simp at hnames
  constructor
  · intro s hs
    rw [hpeak]
    exact le_listMax (List.mem_map_of_mem _ hs)
  · rw [hpeak]
    exact listMax_mem hne

theorem stageTimeAt_eq_of_get? {r : BenchmarkResult} {i : Nat} {s : BenchmarkStage}
    (h : r.stages.get? i = some s) : r.stageTimeAt i = s.timeMs := by
  unfold BenchmarkResult.stageTimeAt
  rw [h]

theorem runsFrom_mem_spec {runEnvF : Nat → RunEnv} {consts : SessionConsts}
    {config : BenchmarkConfiguration} {fuel i clock : _} {rs : List BenchmarkResult} {cEnd : Rat}
    (h : runsFrom runEnvF consts config i fuel clock = (Except.ok rs, cEnd)) :
    ∀ x ∈ rs, x.stages.length = 5
      ∧ x.totals.timeMs = (x.stages.map BenchmarkStage.timeMs).sum := by
  intro x hx
  obtain ⟨j, hj⟩ := List.get?_of_mem hx
  obtain ⟨hlen, hall⟩ := runsFrom_ok h
  have hjlt : j < fuel := by
    rw [← hlen]
    exact (List.get?_eq_some.mp hj).1
  obtain ⟨r, ckj, cj, hget, hrun⟩ := hall j hjlt
  rw [hj] at hget
  injection hget with hget
  subst hget
  obtain ⟨-, -, -, -, -, -, -, -, -, hnames, -, -, -, htot, -, -, -, -, -, -⟩ :=
    executeSingleRun_spec hrun
  refine ⟨?_, htot⟩
  have hlen5 := congrArg List.length hnames
  simpa using hlen5

theorem avgStagesAux_map_frame (results : List BenchmarkResult) (n : Rat) :
    ∀ (ss : List BenchmarkStage) (k : Nat),
      (avgStagesAux results n ss k).map (fun s => (s.name, s.memoryUsage, s.success, s.error))
        = ss.map (fun s => (s.name, s.memoryUsage, s.success, s.error)) := by
  intro ss
  induction ss with
  | nil => intro k; simp [avgStagesAux]
  | cons s t ih => intro k; simp [avgStagesAux, ih]

/-- C6: every BenchmarkResult returned by executeBenchmark (single-run or
aggregated) has Totals.timeMs equal to the sum of its stages' timeMs, within
the ±0.01 tolerance (the equality is in fact exact in this rational model). -/
theorem claim6_totals_time_sum (env : SessionEnv) (config : BenchmarkConfiguration)
    (clock : Rat) (r : BenchmarkResult)
    (h : (executeBenchmark env config clock).outcome = Except.ok r) :
    |r.totals.timeMs - (r.stages.map BenchmarkStage.timeMs).sum| ≤ 1 / 100 := by
  have heq : r.totals.timeMs = (r.stages.map BenchmarkStage.timeMs).sum := by
    obtain ⟨rs, cEnd, hrs, hagg⟩ := outcome_ok_cases h
    have hgood := runsFrom_mem_spec hrs
    rcases rs with _ | ⟨first, _ | ⟨second, rest⟩⟩
    · simp [aggregateResults] at hagg
    · simp only [aggregateResults] at hagg
      injection hagg with hagg
      subst hagg
      exact (hgood first (by simp)).2
    · obtain ⟨hstages, htot, -, -, -, -, -, -⟩ := aggregate_spec rfl hagg
      have hfirst5 : first.stages.length = 5 := (hgood first (by simp)).1
      obtain ⟨s0, s1, s2, s3, s4, hsf⟩ := list_len5 hfirst5
      have hnum : ((first :: second :: rest).map (fun x => x.totals.timeMs)).sum
          = ((first :: second :: rest).map (fun x => x.stageTimeAt 0)).sum
            + (((first :: second :: rest).map (fun x => x.stageTimeAt 1)).sum
            + (((first :: second :: rest).map (fun x => x.stageTimeAt 2)).sum
            + (((first :: second :: rest).map (fun x => x.stageTimeAt 3)).sum
            + ((first :: second :: rest).map (fun x => x.stageTimeAt 4)).sum))) := by
        rw [← sum_map_add5]
        apply congrArg List.sum
        apply List.map_congr_left
        intro x hx
        exact run_time_decomp (hgood x hx).1 (hgood x hx).2
      rw [htot, hstages, hsf, hnum]
      simp [avgStagesAux, div_add_div_same]
  rw [heq, sub_self, abs_zero]
  norm_num

/-- C1: a false verification outcome is normalized into the thrown error
'Proof verification failed', so executeBenchmark rejects whenever any run's
verify operation resolves false, and a returned BenchmarkResult implies the
verify operation resolved true in every run. -/
theorem claim1_verification_gate (env : SessionEnv) (config : BenchmarkConfiguration)
    (clock : Rat) :
    (∀ r, (executeBenchmark env config clock).outcome = Except.ok r →
        ∀ i, i < config.runs → (env.runEnv i).verifyRes.out = Except.ok true)
  ∧ (∀ i, i < config.runs → (env.runEnv i).verifyRes.out = Except.ok false →
        ∀ r, (executeBenchmark env config clock).outcome ≠ Except.ok r)
  ∧ (∀ (circuit : Circuit) (inputs : List (String × String)) (w : Witness) (p : ProofResult),
        0 < config.runs →
        (env.runEnv 0).existsRes.out = Except.ok true →
        (env.runEnv 0).loadRes.out = Except.ok circuit →
        (env.runEnv 0).inputsRes.out = Except.ok inputs →
        (env.runEnv 0).initRes.out = Except.ok () →
        (env.runEnv 0).witnessRes.out = Except.ok w →
        (env.runEnv 0).proveRes.out = Except.ok p →
        (env.runEnv 0).verifyRes.out = Except.ok false →
        (executeBenchmark env config clock).outcome
          = Except.error (JsError.plain "Proof verification failed")) := by
  have hpart1 : ∀ r, (executeBenchmark env config clock).outcome = Except.ok r →
      ∀ i, i < config.runs → (env.runEnv i).verifyRes.out = Except.ok true := by
    intro r h i hi
    obtain ⟨rs, cEnd, hrs, hagg⟩ := outcome_ok_cases h
    obtain ⟨hlen, hall⟩ := runsFrom_ok hrs
    obtain ⟨rj, ckj, cj, hget, hrun⟩ := hall i hi
    rw [Nat.zero_add] at hrun
    exact (executeSingleRun_spec hrun).2.2.1
  refine ⟨hpart1, ?_, ?_⟩
  · intro i hi hv r hok
    have hres := hpart1 r hok i hi
    rw [hv] at hres
    simp at hres
  · intro circuit inputs w p hruns hex hld hin hini hw hp hv
    obtain ⟨fuel, hfuel⟩ : ∃ fuel, config.runs = fuel + 1 := ⟨config.runs - 1, by omega⟩
    have hsingle := @executeSingleRun_verify_false (env.runEnv 0) env.consts config clock
      circuit inputs w p hex hld hin hini hw hp hv
    simp [executeBenchmark, hfuel, runsFrom, hsingle]

/-- C3: the profiler re-throws a failing stage operation's error annotated
with the stage name, the elapsed time and the original error's message; a
returned BenchmarkResult implies every stage operation of every run
succeeded; at the orchestrator level the stage-annotated error propagates
unchanged out of executeBenchmark (illustrated at the witness stage). -/
theorem claim3_stage_failure_wrapping (envS : SessionEnv)
    (config : BenchmarkConfiguration) (clock : Rat) :
    (∀ (α : Type) (mem : Rat → MemSnapshot) (stageName : String)
        (op : Rat → Except JsError α × Rat) (c0 : Rat) (e : JsError),
        (op c0).1 = Except.error e →
        timeStage mem stageName op c0 =
          (Except.error (JsError.stageFailure stageName ((op c0).2 - c0) e.message), (op c0).2))
  ∧ (∀ r, (executeBenchmark envS config clock).outcome = Except.ok r →
        ∀ i, i < config.runs → (envS.runEnv i).allOkB = true)
  ∧ (∀ (circuit : Circuit) (inputs : List (String × String)) (e : JsError),
        0 < config.runs →
        (envS.runEnv 0).existsRes.out = Except.ok true →
        (envS.runEnv 0).loadRes.out = Except.ok circuit →
        (envS.runEnv 0).inputsRes.out = Except.ok inputs →
        (envS.runEnv 0).initRes.out = Except.ok () →
        (envS.runEnv 0).witnessRes.out = Except.error e →
        (executeBenchmark envS config clock).outcome
          = Except.error (JsError.stageFailure "witness-generate" (envS.runEnv 0).witnessRes.dur
              (witnessGenerationError
                ("Failed to generate witness for circuit " ++ circuit.name) e).message)) := by
  refine ⟨?_, ?_, ?_⟩
  · intro α mem stageName op c0 e he
    simp [timeStage, he]
  · intro r h i hi
    obtain ⟨rs, cEnd, hrs, hagg⟩ := outcome_ok_cases h
    obtain ⟨hlen, hall⟩ := runsFrom_ok hrs
    obtain ⟨rj, ckj, cj, hget, hrun⟩ := hall i hi
    rw [Nat.zero_add] at hrun
    obtain ⟨hex, hini, hv, ⟨circuit, hld, -, -⟩, ⟨inputs, hin⟩, ⟨w, hw, -⟩, ⟨p, hp, -⟩, -⟩ :=
      executeSingleRun_spec hrun
    simp [RunEnv.allOkB, hex, hini, hv, hld, hin, hw, hp, exOk]
  · intro circuit inputs e hruns hex hld hin hini hw
    obtain ⟨fuel, hfuel⟩ : ∃ fuel, config.runs = fuel + 1 := ⟨config.runs - 1, by omega⟩
    have hsingle := @executeSingleRun_witness_error (envS.runEnv 0) envS.consts config clock
      circuit inputs e hex hld hin hini hw
    simp [executeBenchmark, hfuel, runsFrom, hsingle]

/-- C5: cleanup runs exactly once per executeBenchmark call; the session
outcome never depends on the cleanup behaviour (a cleanup failure neither
replaces nor suppresses the primary outcome or error); a cleanup failure is
logged as a warning; and ProofService.cleanup warns exactly when the
underlying repository cleanup rejects, never re-throwing. -/
theorem claim5_cleanup_once (env : SessionEnv) (config : BenchmarkConfiguration)
    (clock : Rat) :
    (executeBenchmark env config clock).cleanupCalls = 1
  ∧ (∀ b : OpBehavior Unit,
      (executeBenchmark { env with cleanupRes := b } config clock).outcome
        = (executeBenchmark env config clock).outcome)
  ∧ (∀ e, env.cleanupRes.out = Except.error e →
      (executeBenchmark env config clock).cleanupWarned = true)
  ∧ (∀ (b : OpBehavior Unit) (c : Rat),
      (ProofService.cleanup b c).1 = !(exOk b.out)) := by
  refine ⟨rfl, ?_, ?_, ?_⟩
  · intro b
    rfl
  · intro e he
    simp [executeBenchmark, ProofService.cleanup, runOp, he]
  · intro b c
    rcases hb : b.out with e | u <;> simp [ProofService.cleanup, runOp, hb, exOk]

/-- C9: the test-inputs fetch runs between the profiled load and init stages
but outside any profiler measurement: a completed run has only the five
pipeline stage records, every stage time and the total time exclude the
fetch's duration (which still advances the wall clock, as the final clock and
the init stage's before-snapshot show), and when the fetch rejects the error
propagates without any stage-name/elapsed-time annotation. -/
theorem claim9_inputs_fetch_unprofiled (env : RunEnv) (consts : SessionConsts)
    (config : BenchmarkConfiguration) (clock : Rat) :
    (∀ r c2, executeSingleRun env consts config clock = (Except.ok r, c2) →
        r.stages.map BenchmarkStage.name =
          ["circuit-load", "backend-init", "witness-generate", "proof-generate", "proof-verify"]
      ∧ r.stages.map BenchmarkStage.timeMs =
          [env.existsRes.dur + env.loadRes.dur, env.initRes.dur, env.witnessRes.dur,
           env.proveRes.dur, env.verifyRes.dur]
      ∧ r.totals.timeMs = env.existsRes.dur + env.loadRes.dur
          + (env.initRes.dur + (env.witnessRes.dur + (env.proveRes.dur + env.verifyRes.dur)))
      ∧ c2 = clock + env.existsRes.dur + env.loadRes.dur + env.inputsRes.dur
          + env.initRes.dur + env.witnessRes.dur + env.proveRes.dur + env.verifyRes.dur
      ∧ (r.stages.get? 0).map (fun s => s.memoryUsage.after)
          = some (env.mem (clock + env.existsRes.dur + env.loadRes.dur))
      ∧ (r.stages.get? 1).map (fun s => s.memoryUsage.before)
          = some (env.mem (clock + env.existsRes.dur + env.loadRes.dur + env.inputsRes.dur)))
  ∧ (∀ (circuit : Circuit) (e : JsError),
        env.existsRes.out = Except.ok true →
        env.loadRes.out = Except.ok circuit →
        env.inputsRes.out = Except.error e →
        executeSingleRun env consts config clock =
          (Except.error (circuitLoadError
             ("Failed to load test inputs for " ++ config.circuitName) e),
           clock + env.existsRes.dur + env.loadRes.dur + env.inputsRes.dur)
      ∧ (circuitLoadError ("Failed to load test inputs for " ++ config.circuitName)
           e).isStageAnnotated = false) := by
  constructor
  · intro r c2 h
    obtain ⟨-, -, -, -, -, -, -, -, -, hnames, htimes, hbefore, hafter, htot, -, -, -, -, -, hc2⟩ :=
      executeSingleRun_spec h
    refine ⟨hnames, htimes, ?_, hc2, ?_, ?_⟩
    · rw [htot, htimes]
      simp
    · rw [← List.get?_map, hafter]
      simp
    · rw [← List.get?_map, hbefore]
      simp
  · intro circuit e hex hld hin
    refine ⟨executeSingleRun_inputs_error hex hld hin, ?_⟩
    simp [circuitLoadError, JsError.isStageAnnotated]

/-- C2: with runCount > 1 and all runs completed, the aggregate averages each
stage's time by pipeline index and the per-run totals (time and memory
peak), copies proof/witness sizes verbatim from the first run, and reports
the true number of runs; for runs with identical per-stage times the
aggregated stage times equal those times and the aggregated total equals
their sum. -/
theorem claim2_multi_run_aggregation (env : SessionEnv) (config : BenchmarkConfiguration)
    (clock : Rat) (rs : List BenchmarkResult) (cEnd : Rat) (r : BenchmarkResult)
    (hruns : 1 < config.runs)
    (hrs : runsFrom env.runEnv env.consts config 0 config.runs clock = (Except.ok rs, cEnd))
    (h : (executeBenchmark env config clock).outcome = Except.ok r) :
    rs.length = config.runs
  ∧ (∀ i, i < 5 → r.stageTimeAt i = (rs.map (fun x => x.stageTimeAt i)).sum / (rs.length : Rat))
  ∧ r.totals.timeMs = (rs.map (fun x => x.totals.timeMs)).sum / (rs.length : Rat)
  ∧ r.totals.memoryPeak = (rs.map (fun x => x.totals.memoryPeak)).sum / (rs.length : Rat)
  ∧ (∃ first rest, rs = first :: rest
      ∧ r.totals.proofSize = first.totals.proofSize
      ∧ r.totals.witnessSize = first.totals.witnessSize)
  ∧ r.metadata.runs = rs.length
  ∧ (∀ ts : List Rat, (∀ x ∈ rs, x.stages.map BenchmarkStage.timeMs = ts) →
      (∀ i, i < 5 → r.stageTimeAt i = (ts.get? i).getD 0) ∧ r.totals.timeMs = ts.sum) := by
  obtain ⟨rs2, cEnd2, hrs2, hagg⟩ := outcome_ok_cases h
  rw [hrs] at hrs2
  injection hrs2 with hrs2a hrs2b
  injection hrs2a with hrs2a
  subst hrs2a
  obtain ⟨hlen, hall⟩ := runsFrom_ok hrs
  have hgood := runsFrom_mem_spec hrs
  rcases rs with _ | ⟨first, _ | ⟨second, rest⟩⟩
  · exfalso; rw [← hlen] at hruns; simp at hruns
  · exfalso; rw [← hlen] at hruns; simp at hruns
  obtain ⟨hstages, htot, hpeak, hpsize, hwsize, hmruns, -, -⟩ := aggregate_spec rfl hagg
  have hfirst5 : first.stages.length = 5 := (hgood first (by simp)).1
  have hlenpos : ((first :: second :: rest).length : Rat) ≠ 0 := by
    exact_mod_cast Nat.cast_ne_zero.mpr (by simp)
  have hstA : ∀ i, i < 5 → r.stageTimeAt i
      = ((first :: second :: rest).map (fun x => x.stageTimeAt i)).sum
        / ((first :: second :: rest).length : Rat) := by
    intro i hi
    have hi' : i < first.stages.length := by rw [hfirst5]; omega
    have hs : first.stages.get? i = some (first.stages.get ⟨i, hi'⟩) := List.get?_eq_get hi'
    have hget : r.stages.get? i = some
        { name := (first.stages.get ⟨i, hi'⟩).name
          timeMs := ((first :: second :: rest).map
            (fun x => x.stageTimeAt (0 + i))).sum / ((first :: second :: rest).length : Rat)
          memoryUsage := (first.stages.get ⟨i, hi'⟩).memoryUsage
          success := (first.stages.get ⟨i, hi'⟩).success
          error := (first.stages.get ⟨i, hi'⟩).error } := by
      rw [hstages, avgStagesAux_get? _ _ first.stages 0 i, hs]
      rfl
    rw [stageTimeAt_eq_of_get? hget]
    simp only [Nat.zero_add]
  refine ⟨hlen, hstA, htot, hpeak, ⟨first, second :: rest, rfl, hpsize, hwsize⟩, hmruns, ?_⟩
  intro ts hts
  constructor
  · intro i hi
    rw [hstA i hi]
    have hconst : ((first :: second :: rest).map (fun x => x.stageTimeAt i)).sum
        = ((first :: second :: rest).length : Rat) * ((ts.get? i).getD 0) := by
      rw [← sum_map_const (first :: second :: rest) ((ts.get? i).getD 0)]
      apply congrArg List.sum
      apply List.map_congr_left
      intro x hx
      exact stageTimeAt_of_map (hts x hx) i
    rw [hconst, mul_comm, mul_div_assoc, div_self hlenpos, mul_one]
  · rw [htot]
    have hconst2 : ((first :: second :: rest).map (fun x => x.totals.timeMs)).sum
        = ((first :: second :: rest).length : Rat) * ts.sum := by
      rw [← sum_map_const (first :: second :: rest) ts.sum]
      apply congrArg List.sum
      apply List.map_congr_left
      intro x hx
      rw [(hgood x hx).2, hts x hx]
    rw [hconst2, mul_comm, mul_div_assoc, div_self hlenpos, mul_one]

/-- C10: aggregation with more than one run copies every stage field of the
first run's stage at the same index verbatim (name, memory snapshots and
delta, success flag, error text) and recomputes only timeMs as the
index-aligned mean. -/
theorem claim10_aggregate_frame (results : List BenchmarkResult)
    (config : BenchmarkConfiguration) (first second : BenchmarkResult)
    (rest : List BenchmarkResult) (r : BenchmarkResult)
    (hres : results = first :: second :: rest)
    (hagg : aggregateResults results config = Except.ok r) :
    r.stages.map (fun s => (s.name, s.memoryUsage, s.success, s.error))
      = first.stages.map (fun s => (s.name, s.memoryUsage, s.success, s.error))
  ∧ (∀ i, r.stages.get? i = (first.stages.get? i).map (fun s =>
      { name := s.name
        timeMs := (results.map (fun x => x.stageTimeAt i)).sum / (results.length : Rat)
        memoryUsage := s.memoryUsage
        success := s.success
        error := s.error })) := by
  obtain ⟨hstages, -, -, -, -, -, -, -⟩ := aggregate_spec hres hagg
  constructor
  · rw [hstages]
    exact avgStagesAux_map_frame results (results.length : Rat) first.stages 0
  · intro i
    rw [hstages, avgStagesAux_get? _ _ first.stages 0 i]
    simp only [Nat.zero_add]

/-! ## Witnesses -/

/-- Failing operation used by the profiler witness. -/
def failOp : Rat → Except JsError Unit × Rat :=
  fun c => (Except.error (JsError.plain "boom"), c + 5)

/-- Minimal single-stage benchmark results used by the aggregation witness. -/
def tinyResult (t : Rat) : BenchmarkResult :=
  ⟨"c", "b", [⟨"s", t, ⟨⟨0, 0, 0, 0⟩, ⟨1, 0, 0, 0⟩, ⟨1, 0, 0, 0⟩⟩, true, none⟩],
   ⟨t, 1, 1, 1⟩, ⟨0, 0, 1, 1, "v", "p"⟩⟩

theorem claim1_witness :
    (executeBenchmark badVerifyEnv sampleConfig1 0).outcome
      = Except.error (JsError.plain "Proof verification failed") :=
  (claim1_verification_gate badVerifyEnv sampleConfig1 0).2.2 sampleCircuit [("x", "1")]
    ⟨[5, 6], 16⟩ ⟨[7, 8, 9], [1], 809, false, 0⟩ (by decide) rfl rfl rfl rfl rfl rfl rfl

theorem claim2_witness :
    onOk (executeBenchmark sampleEnv sampleConfig3 0).outcome
      (fun r => r.metadata.runs = 3) := by
  rcases hrs : runsFrom sampleEnv.runEnv sampleEnv.consts sampleConfig3 0 sampleConfig3.runs 0
    with ⟨out, cEnd⟩
  rcases out with e | rs
  · exfalso
    have hok : exOk (runsFrom sampleEnv.runEnv sampleEnv.consts sampleConfig3 0
        sampleConfig3.runs 0).1 = true := by decide
    rw [hrs] at hok
    simp [exOk] at hok
  · rcases hout : (executeBenchmark sampleEnv sampleConfig3 0).outcome with e2 | r
    · exfalso
      have hok : exOk (executeBenchmark sampleEnv sampleConfig3 0).outcome = true := by decide
      rw [hout] at hok
      simp [exOk] at hok
    · have hc := claim2_multi_run_aggregation sampleEnv sampleConfig3 0 rs cEnd r
        (by decide) hrs hout
      simp only [onOk]
      rw [hc.2.2.2.2.2.1, hc.1]
      rfl

theorem claim3_witness :
    timeStage memZero "witness-generate" failOp 0
      = (Except.error (JsError.stageFailure "witness-generate" 5 "boom"), 5) := by
  have h := (claim3_stage_failure_wrapping sampleEnv sampleConfig1 0).1 Unit memZero
    "witness-generate" failOp 0 (JsError.plain "boom") rfl
  rw [h]
  norm_num [failOp, JsError.message]

theorem claim4_witness :
    onOk (executeBenchmark sampleEnv sampleConfig1 0).outcome
      (fun r => r.stages.map BenchmarkStage.name =
        ["circuit-load", "backend-init", "witness-generate", "proof-generate", "proof-verify"]) := by
  rcases hout : (executeBenchmark sampleEnv sampleConfig1 0).outcome with e | r
  · exfalso
    have hok : exOk (executeBenchmark sampleEnv sampleConfig1 0).outcome = true := by decide
    rw [hout] at hok
    simp [exOk] at hok
  · simp only [onOk]
    exact claim4_single_run_pipeline sampleEnv sampleConfig1 0 r rfl hout

theorem claim5_witness :
    (executeBenchmark badCleanupEnv sampleConfig1 0).cleanupCalls = 1
  ∧ (executeBenchmark badCleanupEnv sampleConfig1 0).cleanupWarned = true :=
  ⟨(claim5_cleanup_once badCleanupEnv sampleConfig1 0).1,
   (claim5_cleanup_once badCleanupEnv sampleConfig1 0).2.2.1
     (JsError.plain "backend destroy failed") rfl⟩

theorem claim6_witness :
    onOk (executeBenchmark sampleEnv sampleConfig3 0).outcome
      (fun r => |r.totals.timeMs - (r.stages.map BenchmarkStage.timeMs).sum| ≤ 1 / 100) := by
  rcases hout : (executeBenchmark sampleEnv sampleConfig3 0).outcome with e | r
  · exfalso
    have hok : exOk (executeBenchmark sampleEnv sampleConfig3 0).outcome = true := by decide
    rw [hout] at hok
    simp [exOk] at hok
  · simp only [onOk]
    exact claim6_totals_time_sum sampleEnv sampleConfig3 0 r hout

theorem claim7_witness :
    onOk (executeSingleRun okRunEnv sampleConsts sampleConfig1 0).1
      (fun r => (∀ s ∈ r.stages, s.memoryUsage.after.heapUsed ≤ r.totals.memoryPeak)
        ∧ r.totals.memoryPeak ∈ r.stages.map (fun s => s.memoryUsage.after.heapUsed)) := by
  rcases hp : executeSingleRun okRunEnv sampleConsts sampleConfig1 0 with ⟨out, c2⟩
  rcases out with e | r
  · exfalso
    have hok : exOk (executeSingleRun okRunEnv sampleConsts sampleConfig1 0).1 = true := by
      decide
    rw [hp] at hok
    simp [exOk] at hok
  · simp only [onOk]
    exact claim7_memory_peak okRunEnv sampleConsts sampleConfig1 0 r c2 hp

theorem claim9_witness :
    executeSingleRun badInputsRunEnv sampleConsts sampleConfig1 0
      = (Except.error (circuitLoadError ("Failed to load test inputs for " ++ "simple-hash")
          (JsError.plain "Prover.toml not found")), 4)
  ∧ (circuitLoadError ("Failed to load test inputs for " ++ "simple-hash")
      (JsError.plain "Prover.toml not found")).isStageAnnotated = false := by
  have h := (claim9_inputs_fetch_unprofiled badInputsRunEnv sampleConsts sampleConfig1 0).2
    sampleCircuit (JsError.plain "Prover.toml not found") rfl rfl rfl
  refine ⟨?_, h.2⟩
  rw [h.1]
  norm_num [sampleConfig1, badInputsRunEnv, okRunEnv]

theorem claim10_witness :
    onOk (aggregateResults [tinyResult 4, tinyResult 2] sampleConfig1)
      (fun r => r.stages.map (fun s => (s.name, s.memoryUsage, s.success, s.error))
        = (tinyResult 4).stages.map (fun s => (s.name, s.memoryUsage, s.success, s.error))) := by
  rcases hagg : aggregateResults [tinyResult 4, tinyResult 2] sampleConfig1 with e | r
  · simp [aggregateResults] at hagg
  · simp only [onOk]
    exact (claim10_aggregate_frame [tinyResult 4, tinyResult 2] sampleConfig1
      (tinyResult 4) (tinyResult 2) [] r rfl hagg).1

end NoirBench
